import Mathlib

/-!
Verification development for the Tweneigh repository: a collection of 27
instructional notebooks (18 named `.ipynb` files and 9 unnamed parts) that
demonstrate PyTorch, OpenAI Gym and stable-baselines3 usage.  The notebooks
are shallowly embedded below: the numeric computations the notebooks define
themselves (reward functions, the custom MAPE loss, the combined loss, the
REINFORCE update, the episode loop, checkpoint save/load) are translated to
executable Lean functions over `ℚ`, and repository-wide inventory facts
(which file defines which construct) are recorded as total functions on an
enumeration of the 27 source files.
-/

namespace Tweneigh

/-- The 27 source files of the repository: the 18 named notebooks and the 9
unnamed notebook parts `src/unnamed/part_000` … `part_008`. -/
inductive SourceFile
  | algorithmsA2C
  | algorithmsDDPG
  | algorithmsSAC
  | algorithmsTD3
  | gymEnvironments
  | gymRewardFunctions
  | lossBinaryCrossEntropy
  | lossCrossEntropy
  | lossCustom
  | lossL1
  | lossMSE
  | pytorchAutograd
  | pytorchDataLoading
  | pytorchFeatureColumns
  | pytorchForwardPropagation
  | sb3Environments
  | sb3ModelTrainingEval
  | sb3Overview
  | part000
  | part001
  | part002
  | part003
  | part004
  | part005
  | part006
  | part007
  | part008
  deriving DecidableEq, Fintype, Repr

/-- A mechanism by which a reinforcement-learning policy is trained in a
notebook: either a single high-level `learn(total_timesteps=...)` call on a
stable-baselines3 model, or a hand-written REINFORCE policy-gradient update
loop (explicit discounted-return accumulation, `-log_prob * R` terms,
`zero_grad`/`backward`/`step`). -/
inductive TrainMech
  | learnCall
  | reinforceLoop
  deriving DecidableEq, Repr

/-- RL training mechanisms appearing in each source file, in program order.
`learn()` calls occur in `Algorithms-A2C.ipynb` (line 111), `Algorithms-DDPG.ipynb`
(103), `Algorithms-SAC.ipynb` (84), `Algorithms-TD3.ipynb` (81),
`SB3-Environments.ipynb` (128), `SB3-Model_Training_and_Eval.ipynb` (89),
`SB3-Overview.ipynb` (103) and `part_005` (99).  The only hand-written
policy-gradient training loop is the REINFORCE loop of
`Gym-Reward_Functions.ipynb` (line 116).  The supervised
`zero_grad`/`backward`/`step` loops of the loss-function notebooks train
regression/classification models against fixed data, not RL agents, and are
not RL training mechanisms. -/
def rlTrainingMechs : SourceFile → List TrainMech
  | SourceFile.algorithmsA2C => [TrainMech.learnCall]
  | SourceFile.algorithmsDDPG => [TrainMech.learnCall]
  | SourceFile.algorithmsSAC => [TrainMech.learnCall]
  | SourceFile.algorithmsTD3 => [TrainMech.learnCall]
  | SourceFile.gymRewardFunctions => [TrainMech.reinforceLoop]
  | SourceFile.sb3Environments => [TrainMech.learnCall]
  | SourceFile.sb3ModelTrainingEval => [TrainMech.learnCall]
  | SourceFile.sb3Overview => [TrainMech.learnCall]
  | SourceFile.part005 => [TrainMech.learnCall]
  | _ => []

/-- The term-collecting loop of the REINFORCE update in
`Gym-Reward_Functions.ipynb` (cell at line 116): iterating over
`zip(reversed(rewards), reversed(log_probs))`, it carries the running
discounted return `R` (updated as `R = r + gamma * R`) and collects the
policy-loss terms `-log_prob * R`. -/
def reinforceTerms (gamma : ℚ) : List (ℚ × ℚ) → ℚ → List ℚ
  | [], _ => []
  | (r, lp) :: rest, acc =>
      (-lp * (r + gamma * acc)) :: reinforceTerms gamma rest (r + gamma * acc)

/-- The per-episode policy loss computed by the REINFORCE update block of
`Gym-Reward_Functions.ipynb`: the sum of the collected `-log_prob * R`
terms (`policy_loss = torch.cat(policy_loss).sum()`). -/
def policy_loss (gamma : ℚ) (rewards log_probs : List ℚ) : ℚ :=
  (reinforceTerms gamma (rewards.reverse.zip log_probs.reverse) 0).sum

/-- Discounted return of a reward sequence from its first element:
`G(r :: rs) = r + gamma * G(rs)`. -/
def discountedReturn (gamma : ℚ) : List ℚ → ℚ
  | [] => 0
  | r :: rs => r + gamma * discountedReturn gamma rs

/-- The textbook REINFORCE objective: minus the sum over timesteps `t` of
`log_probs[t]` times the discounted return from `t` on.  Used to characterise
what the hand-written loop of `Gym-Reward_Functions.ipynb` computes. -/
def reinforceObjective (gamma : ℚ) : List ℚ → List ℚ → ℚ
  | r :: rs, lp :: lps =>
      -lp * discountedReturn gamma (r :: rs) + reinforceObjective gamma rs lps
  | _, _ => 0

/-- Mean of a list of rationals, modelling `torch.mean` on a 1-d tensor
(`sum / length`; the mean of the empty list is `0` by `ℚ` convention). -/
def mean (l : List ℚ) : ℚ := l.sum / l.length

namespace MeanAbsolutePercentageError

/-- The `forward` method of the custom loss module `MeanAbsolutePercentageError`
defined in `Loss_Functions-Custom.ipynb` (cell at line 52):
`torch.mean(torch.abs((y_true - y_pred) / y_true)) * 100`, with 1-d tensors
modelled as lists of rationals and elementwise subtraction/division as
`zipWith`. -/
def forward (y_pred y_true : List ℚ) : ℚ :=
  mean (List.map abs
    (List.zipWith (· / ·) (List.zipWith (· - ·) y_true y_pred) y_true)) * 100

/-- Guarded variant of `forward` that makes the partiality of the elementwise
division explicit: the source divides by `y_true` with no guard, so the
computation is well-defined (no division by zero) exactly when every entry of
`y_true` is nonzero; otherwise the result is `none`. -/
def forwardChecked (y_pred y_true : List ℚ) : Option ℚ :=
  if y_true.all (fun x => !(x == 0)) then some (forward y_pred y_true) else none

end MeanAbsolutePercentageError

/-- The `combined_loss` function of `src/unnamed/part_003` (lines 85-88):
`alpha * mse_loss(regression_output, regression_targets)
 + (1 - alpha) * cross_entropy_loss(classification_output, classification_targets)`,
with default `alpha = 0.5`.  The two third-party loss functions are passed in
as parameters, as in the source where `mse_loss` and `cross_entropy_loss` are
the library modules in scope. -/
def combined_loss {α β : Type} (mse_loss : α → α → ℚ)
    (cross_entropy_loss : β → β → ℚ)
    (regression_output : α) (classification_output : β)
    (regression_targets : α) (classification_targets : β)
    (alpha : ℚ := 0.5) : ℚ :=
  let loss1 := mse_loss regression_output regression_targets
  let loss2 := cross_entropy_loss classification_output classification_targets
  alpha * loss1 + (1 - alpha) * loss2

/-- Names of loss computations defined by the notebooks themselves (rather
than invoked from `torch.nn`): the custom module `MeanAbsolutePercentageError`
in `Loss_Functions-Custom.ipynb` (line 52) and the weighted-sum function
`combined_loss` in `part_003` (line 85).  Every other loss used anywhere in
the sources is a `torch.nn` class (`MSELoss`, `L1Loss`, `BCELoss`,
`CrossEntropyLoss`, `NLLLoss`) invoked directly. -/
def customLossDefs : SourceFile → List String
  | SourceFile.lossCustom => ["MeanAbsolutePercentageError"]
  | SourceFile.part003 => ["combined_loss"]
  | _ => []

/-- The `num_workers` argument of each `DataLoader(...)` construction in each
source file, in program order (`none` when the argument is omitted):
`Algorithms-SAC.ipynb` lines 231-232 (omitted), `PyTorch-Data_Loading_Preprocessing.ipynb`
lines 167, 244, 245 (all `num_workers=4`), `part_003` lines 533-534 (omitted).
No other file constructs a `DataLoader`. -/
def dataLoaderWorkerArgs : SourceFile → List (Option Nat)
  | SourceFile.algorithmsSAC => [none, none]
  | SourceFile.pytorchDataLoading => [some 4, some 4, some 4]
  | SourceFile.part003 => [none, none]
  | _ => []

/-- Number of worker processes a `DataLoader` spawns for a given
`num_workers` argument: the given value, or the library default `0`
(single-process, in-process loading) when the argument is omitted. -/
def effectiveWorkers (o : Option Nat) : Nat := o.getD 0

/-- Names of `gym.Env` subclasses defined by each source file itself: only
`SB3-Environments.ipynb` defines one, the skeleton `CustomEnvironment`
(lines 91-107, with `pass` bodies for `step`/`reset`/`render`). -/
def gymEnvSubclasses : SourceFile → List String
  | SourceFile.sb3Environments => ["CustomEnvironment"]
  | _ => []

/-- Whether a source file substitutes its own reward computation for the
environment's native reward channel: true only for
`Gym-Reward_Functions.ipynb`, whose training loop (line 116) discards the
reward returned by `env.step` (`next_state, _, done, _`) and uses the
notebook-defined `basic_reward` instead. -/
def envRewardOverridden : SourceFile → Bool
  | SourceFile.gymRewardFunctions => true
  | _ => false

/-- Exception-handling constructs (`try`/`except` blocks and custom exception
classes) defined in each source file.  No file contains any: there is no
`try`, `except` or `raise` statement, and no class deriving from `Exception`,
anywhere in the 27 sources. -/
def exceptionHandlers : SourceFile → List String
  | _ => []

/-- A Gym environment as consumed by the episode loop of `part_004`:
`reset` yields the initial state, `sample` models
`env.action_space.sample()` (the random sampler is modelled as a function of
the current state), and `step` may fail inside the wrapped library, modelled
by `Except`. -/
structure GymEnv (σ ε : Type) where
  reset : σ
  sample : σ → Nat
  step : σ → Nat → Except ε (σ × ℚ × Bool)

/-- The body of `run_episode` from `src/unnamed/part_004` (lines 46-56): while
not done, sample an action, step the environment, accumulate the reward.  The
`while` loop is given explicit fuel; the notebook code performs no error
handling, so a failure of `env.step` is returned unchanged. -/
def runEpisodeAux {σ ε : Type} (env : GymEnv σ ε) :
    Nat → σ → ℚ → Except ε ℚ
  | 0, _, total_reward => Except.ok total_reward
  | Nat.succ fuel, state, total_reward =>
      match env.step state (env.sample state) with
      | Except.error e => Except.error e
      | Except.ok (next_state, reward, done) =>
          if done then Except.ok (total_reward + reward)
          else runEpisodeAux env fuel next_state (total_reward + reward)

/-- `run_episode(env)` from `src/unnamed/part_004`: start from `env.reset()`
with `total_reward = 0` and run the episode loop. -/
def run_episode {σ ε : Type} (env : GymEnv σ ε) (fuel : Nat) : Except ε ℚ :=
  runEpisodeAux env fuel env.reset 0

/-- A checkpoint file operation performed by a notebook: writing a model
state to a local path (`torch.save` / SB3 `.save`) or reading from a path
(`torch.load` / SB3 `.load`). -/
inductive FileOp (α : Type)
  | write (path : String) (v : α)
  | read (path : String)

/-- The checkpoint operations of each notebook, in program order, with the
saved model state abstracted as the parameter `st`:
`Algorithms-A2C.ipynb` 129-130 (`a2c_cartpole`), `Algorithms-DDPG.ipynb` 121
(`ddpg_pendulum`, save only), `Gym-Environments.ipynb` 212/230
(`simple_model.pth`), `Loss_Functions-Binary_Cross-Entropy.ipynb` 158/162
(`simple_classifier.pth`), `Loss_Functions-Cross-Entropy.ipynb` 209/227
(`model_path = 'simple_nn.pth'`), `Loss_Functions-MSE.ipynb` 220/224
(`linear_regression_model.pth`), `PyTorch-Feature_Columns.ipynb` 229/254
(`trained_model.pt`), `SB3-Model_Training_and_Eval.ipynb` 139-140
(`ppo_cartpole`), `part_003` 594/598 (`digit_classifier.pth`), `part_005`
117-118 (`ppo_cartpole`).  No other file saves or loads a checkpoint. -/
def checkpointOps (α : Type) (st : α) : SourceFile → List (FileOp α)
  | SourceFile.algorithmsA2C =>
      [FileOp.write "a2c_cartpole" st, FileOp.read "a2c_cartpole"]
  | SourceFile.algorithmsDDPG =>
      [FileOp.write "ddpg_pendulum" st]
  | SourceFile.gymEnvironments =>
      [FileOp.write "simple_model.pth" st, FileOp.read "simple_model.pth"]
  | SourceFile.lossBinaryCrossEntropy =>
      [FileOp.write "simple_classifier.pth" st,
       FileOp.read "simple_classifier.pth"]
  | SourceFile.lossCrossEntropy =>
      [FileOp.write "simple_nn.pth" st, FileOp.read "simple_nn.pth"]
  | SourceFile.lossMSE =>
      [FileOp.write "linear_regression_model.pth" st,
       FileOp.read "linear_regression_model.pth"]
  | SourceFile.pytorchFeatureColumns =>
      [FileOp.write "trained_model.pt" st, FileOp.read "trained_model.pt"]
  | SourceFile.sb3ModelTrainingEval =>
      [FileOp.write "ppo_cartpole" st, FileOp.read "ppo_cartpole"]
  | SourceFile.part003 =>
      [FileOp.write "digit_classifier.pth" st,
       FileOp.read "digit_classifier.pth"]
  | SourceFile.part005 =>
      [FileOp.write "ppo_cartpole" st, FileOp.read "ppo_cartpole"]
  | _ => []

/-- Run a sequence of checkpoint operations against a filesystem store
(path to optional stored state), returning the result of each read in
order. -/
def runOps {α : Type} (store : String → Option α) :
    List (FileOp α) → List (Option α)
  | [] => []
  | FileOp.write p v :: rest =>
      runOps (fun q => if q = p then some v else store q) rest
  | FileOp.read p :: rest => store p :: runOps store rest

/-- Paths written by a sequence of checkpoint operations. -/
def writePaths {α : Type} (ops : List (FileOp α)) : List String :=
  ops.filterMap fun op =>
    match op with
    | FileOp.write p _ => some p
    | FileOp.read _ => none

/-- Paths read by a sequence of checkpoint operations. -/
def readPaths {α : Type} (ops : List (FileOp α)) : List String :=
  ops.filterMap fun op =>
    match op with
    | FileOp.write _ _ => none
    | FileOp.read p => some p

/-- A CartPole observation as indexed by the reward functions of
`Gym-Reward_Functions.ipynb`: a 4-component vector (cart position, cart
velocity, pole angle, pole angular velocity). -/
def CartObs : Type := Fin 4 → ℚ

/-- `basic_reward` from `Gym-Reward_Functions.ipynb` (line 61): `-1` when the
episode is done, else `+1`. -/
def basic_reward (_state : CartObs) (_action : Nat) (_next_state : CartObs)
    (done : Bool) : ℚ :=
  if done then -1 else 1

/-- `angle_reward` from `Gym-Reward_Functions.ipynb` (line 77):
`pole_angle = abs(next_state[2])`; `-1` when done, else
`1 - pole_angle / (2 * 3.14159265)`. -/
def angle_reward (_state : CartObs) (_action : Nat) (next_state : CartObs)
    (done : Bool) : ℚ :=
  let pole_angle := |next_state 2|
  if done then -1 else 1 - pole_angle / (2 * 3.14159265)

/-- `angle_position_reward` from `Gym-Reward_Functions.ipynb` (line 93):
`pole_angle = abs(next_state[2])`, `cart_position = abs(next_state[0])`;
`-1` when done, else
`1 - (pole_angle / (2 * 3.14159265) + cart_position / 2.4) / 2`. -/
def angle_position_reward (_state : CartObs) (_action : Nat)
    (next_state : CartObs) (done : Bool) : ℚ :=
  let pole_angle := |next_state 2|
  let cart_position := |next_state 0|
  if done then -1
  else 1 - (pole_angle / (2 * 3.14159265) + cart_position / 2.4) / 2

/-! ## Helper lemmas -/

/-- Processing a concatenation of term lists in the REINFORCE loop splits at
the concatenation, with the running return carried across by a fold. -/
theorem reinforceTerms_append (gamma : ℚ) (l1 l2 : List (ℚ × ℚ)) (acc : ℚ) :
    reinforceTerms gamma (l1 ++ l2) acc
      = reinforceTerms gamma l1 acc
        ++ reinforceTerms gamma l2
            (l1.foldl (fun a p => p.1 + gamma * a) acc) := by
  induction l1 generalizing acc with
  | nil => simp [reinforceTerms]
  | cons hd tl ih => cases hd with
    | mk r lp => simp [reinforceTerms, ih]

/-- The running return accumulated over the reversed reward/log-prob pairs is
the discounted return of the reward sequence. -/
theorem foldl_reverse_zip_discounted (gamma : ℚ) :
    ∀ rs lps : List ℚ, rs.length = lps.length →
      (rs.reverse.zip lps.reverse).foldl (fun a p => p.1 + gamma * a) 0
        = discountedReturn gamma rs := by
  intro rs
  induction rs with
  | nil => intro lps _; simp [discountedReturn]
  | cons r rs ih =>
      intro lps h
      cases lps with
      | nil => simp at h
      | cons lp lps =>
          have hlen : rs.length = lps.length := by simpa using h
          have hlenr : rs.reverse.length = lps.reverse.length := by
            simpa using hlen
          have hzip : ((r :: rs).reverse).zip ((lp :: lps).reverse)
              = (rs.reverse.zip lps.reverse) ++ [(r, lp)] := by
            simp [List.reverse_cons, List.zip_append hlenr]
          rw [hzip, List.foldl_append, ih lps hlen]
          simp [discountedReturn]

/-- The policy loss computed by the hand-written update loop of
`Gym-Reward_Functions.ipynb` equals the textbook REINFORCE objective:
minus the sum over timesteps of the log-probability times the discounted
return from that timestep on. -/
theorem policy_loss_eq_reinforceObjective (gamma : ℚ) :
    ∀ rewards log_probs : List ℚ, rewards.length = log_probs.length →
      policy_loss gamma rewards log_probs
        = reinforceObjective gamma rewards log_probs := by
  intro rewards
  induction rewards with
  | nil => intro lps _; simp [policy_loss, reinforceTerms, reinforceObjective]
  | cons r rs ih =>
      intro lps h
      cases lps with
      | nil => simp at h
      | cons lp lps =>
          have hlen : rs.length = lps.length := by simpa using h
          have hlenr : rs.reverse.length = lps.reverse.length := by
            simpa using hlen
          have hzip : ((r :: rs).reverse).zip ((lp :: lps).reverse)
              = (rs.reverse.zip lps.reverse) ++ [(r, lp)] := by
            simp [List.reverse_cons, List.zip_append hlenr]
          have hacc : (rs.reverse.zip lps.reverse).foldl
              (fun a p => p.1 + gamma * a) 0 = discountedReturn gamma rs :=
            foldl_reverse_zip_discounted gamma rs lps hlen
          have hrec := ih lps hlen
          simp only [policy_loss] at hrec
          simp only [policy_loss, hzip, reinforceTerms_append, hacc,
            reinforceTerms, List.sum_append, List.sum_cons, List.sum_nil,
            hrec, reinforceObjective, discountedReturn]
          ring

/-- Fusing the elementwise pipeline of the MAPE forward computation:
`abs((a - b) / a)` taken elementwise. -/
theorem map_abs_zipWith_div_sub (a b : List ℚ) :
    List.map abs (List.zipWith (· / ·) (List.zipWith (· - ·) a b) a)
      = List.zipWith (fun t p => |(t - p) / t|) a b := by
  induction a generalizing b with
  | nil => simp
  | cons x xs ih =>
      cases b with
      | nil => simp
      | cons y ys => simp [ih]

/-! ## Claim theorems -/

/-- C8: for tensors `y_pred` and `y_true` of equal shape in which every entry
of `y_true` is nonzero, `MeanAbsolutePercentageError().forward(y_pred, y_true)`
equals 100 times the mean of `|(y_true - y_pred) / y_true|`, and under that
precondition the elementwise division never divides by zero; the division is
otherwise unguarded, so a zero target makes the computation undefined
(witnessed by the `none` conjunct). -/
theorem C8_mape_formula_and_guard (y_pred y_true : List ℚ)
    (_hlen : y_pred.length = y_true.length)
    (hnz : ∀ x ∈ y_true, x ≠ 0) :
    MeanAbsolutePercentageError.forwardChecked y_pred y_true
      = some (100 * mean (List.zipWith (fun t p => |(t - p) / t|) y_true y_pred))
    ∧ MeanAbsolutePercentageError.forwardChecked [1] [0] = none := by
  constructor
  · have hall : y_true.all (fun x => !(x == 0)) = true := by
      rw [List.all_eq_true]
      intro x hx
      simpa using hnz x hx
    simp [MeanAbsolutePercentageError.forwardChecked, hall,
      MeanAbsolutePercentageError.forward, map_abs_zipWith_div_sub, mul_comm]
  · decide

/-- Witness for C8 at `y_pred = [1]`, `y_true = [2]`. -/
theorem C8_witness :
    MeanAbsolutePercentageError.forwardChecked [1] [2]
      = some (100 * mean (List.zipWith (fun t p => |(t - p) / t|) [2] [1]))
    ∧ MeanAbsolutePercentageError.forwardChecked [1] [0] = none :=
  C8_mape_formula_and_guard [1] [2] (by decide) (by decide)

/-- C9: `combined_loss` returns `alpha * L1 + (1 - alpha) * L2` for the two
component losses `L1` (MSE) and `L2` (cross-entropy); with the default
`alpha = 0.5` it is their arithmetic mean; and for `alpha` in `[0, 1]` it lies
between the minimum and the maximum of the two component losses. -/
theorem C9_combined_loss_affine {α β : Type} (mse_loss : α → α → ℚ)
    (cross_entropy_loss : β → β → ℚ) (ro rt : α) (co ct : β) (alpha : ℚ) :
    combined_loss mse_loss cross_entropy_loss ro co rt ct alpha
        = alpha * mse_loss ro rt + (1 - alpha) * cross_entropy_loss co ct
    ∧ combined_loss mse_loss cross_entropy_loss ro co rt ct
        = (mse_loss ro rt + cross_entropy_loss co ct) / 2
    ∧ (0 ≤ alpha → alpha ≤ 1 →
        min (mse_loss ro rt) (cross_entropy_loss co ct)
            ≤ combined_loss mse_loss cross_entropy_loss ro co rt ct alpha
        ∧ combined_loss mse_loss cross_entropy_loss ro co rt ct alpha
            ≤ max (mse_loss ro rt) (cross_entropy_loss co ct)) := by
  refine ⟨rfl, ?_, ?_⟩
  · have e : combined_loss mse_loss cross_entropy_loss ro co rt ct
        = (0.5 : ℚ) * mse_loss ro rt
          + (1 - 0.5) * cross_entropy_loss co ct := rfl
    rw [e]; ring
  · intro h0 h1
    have e : combined_loss mse_loss cross_entropy_loss ro co rt ct alpha
        = alpha * mse_loss ro rt
          + (1 - alpha) * cross_entropy_loss co ct := rfl
    rw [e]
    rcases le_total (mse_loss ro rt) (cross_entropy_loss co ct) with h | h
    · rw [min_eq_left h, max_eq_right h]
      constructor <;> nlinarith
    · rw [min_eq_right h, max_eq_left h]
      constructor <;> nlinarith

/-- Witness for C9 with constant component losses `3` and `5` and
`alpha = 1/4`. -/
theorem C9_witness :
    min (3 : ℚ) 5
        ≤ combined_loss (fun _ _ => (3 : ℚ)) (fun _ _ => (5 : ℚ))
            () () () () (1/4)
    ∧ combined_loss (fun _ _ => (3 : ℚ)) (fun _ _ => (5 : ℚ))
        () () () () (1/4) ≤ max (3 : ℚ) 5 :=
  (C9_combined_loss_affine (fun _ _ => (3 : ℚ)) (fun _ _ => (5 : ℚ))
    () () () () (1/4)).2.2 (by norm_num) (by norm_num)

/-- C10: with `done = True` each of the three reward functions of
`Gym-Reward_Functions.ipynb` returns `-1` regardless of the other arguments;
with `done = False`, `basic_reward` returns `1` and `angle_reward` returns
`1 - |next_state[2]| / (2 * 3.14159265)`. -/
theorem C10_reward_functions (s : CartObs) (a : Nat) (ns : CartObs) :
    (basic_reward s a ns true = -1
      ∧ angle_reward s a ns true = -1
      ∧ angle_position_reward s a ns true = -1)
    ∧ basic_reward s a ns false = 1
    ∧ angle_reward s a ns false = 1 - |ns 2| / (2 * 3.14159265) :=
  ⟨⟨rfl, rfl, rfl⟩, rfl, rfl⟩

/-- C1 counterexample: `Gym-Reward_Functions.ipynb` trains its policy network
with a hand-written REINFORCE policy-gradient loop and contains no `learn()`
call, refuting the claim that no hand-written policy-gradient update loop
exists anywhere in the sources. -/
theorem C1_counterexample :
    TrainMech.reinforceLoop ∈ rlTrainingMechs SourceFile.gymRewardFunctions
    ∧ TrainMech.learnCall ∉ rlTrainingMechs SourceFile.gymRewardFunctions := by
  decide

/-- C1 (amended): every stable-baselines3 agent is trained via a single
`learn()` call, and the only hand-written policy-gradient training loop in the
sources is the REINFORCE loop of `Gym-Reward_Functions.ipynb`; that loop's
per-episode loss equals the textbook REINFORCE objective (minus the sum of
log-probabilities weighted by discounted returns). -/
theorem C1_amended :
    (∀ f : SourceFile,
        TrainMech.reinforceLoop ∈ rlTrainingMechs f
          ↔ f = SourceFile.gymRewardFunctions)
    ∧ ∀ (gamma : ℚ) (rewards log_probs : List ℚ),
        rewards.length = log_probs.length →
        policy_loss gamma rewards log_probs
          = reinforceObjective gamma rewards log_probs :=
  ⟨by decide, fun gamma rewards lps h =>
    policy_loss_eq_reinforceObjective gamma rewards lps h⟩

/-- Witness for C1 at `gamma = 1`, `rewards = [1, 1]`,
`log_probs = [2, 3]`: the loop's loss is `-(2·2) - (3·1) = -7`. -/
theorem C1_witness :
    policy_loss (1 : ℚ) [1, 1] [2, 3] = reinforceObjective 1 [1, 1] [2, 3]
    ∧ reinforceObjective (1 : ℚ) [1, 1] [2, 3] = -7 :=
  ⟨C1_amended.2 1 [1, 1] [2, 3] (by decide),
   by norm_num [reinforceObjective, discountedReturn]⟩

/-- C2 counterexample: `Loss_Functions-Custom.ipynb` defines its own loss
computation, the module `MeanAbsolutePercentageError`, refuting the claim
that no notebook reimplements a loss computation of its own. -/
theorem C2_counterexample :
    customLossDefs SourceFile.lossCustom ≠ []
    ∧ "MeanAbsolutePercentageError" ∈ customLossDefs SourceFile.lossCustom := by
  decide

/-- C2 (amended): every loss used in the repository is a third-party
`torch.nn` loss invoked directly, except that `Loss_Functions-Custom.ipynb`
defines the custom module `MeanAbsolutePercentageError` (computing 100 times
the mean of `|(y_true - y_pred) / y_true|`) and `part_003` defines
`combined_loss`, a weighted sum of two third-party losses. -/
theorem C2_amended :
    (∀ f : SourceFile, customLossDefs f = []
        ↔ (f ≠ SourceFile.lossCustom ∧ f ≠ SourceFile.part003))
    ∧ ∀ y_pred y_true : List ℚ,
        MeanAbsolutePercentageError.forward y_pred y_true
          = 100 * mean (List.zipWith (fun t p => |(t - p) / t|) y_true y_pred) := by
  refine ⟨by decide, ?_⟩
  intro y_pred y_true
  simp [MeanAbsolutePercentageError.forward, map_abs_zipWith_div_sub, mul_comm]

/-- C3 counterexample: `PyTorch-Data_Loading_Preprocessing.ipynb` constructs
`DataLoader`s with `num_workers=4`, which spawn four parallel worker
processes each, refuting the claim that no cell spawns parallel workers. -/
theorem C3_counterexample :
    some 4 ∈ dataLoaderWorkerArgs SourceFile.pytorchDataLoading
    ∧ effectiveWorkers (some 4) ≠ 0 := by
  decide

/-- C3 (amended): every notebook cell executes single-threaded and
synchronously except the three `DataLoader` constructions of
`PyTorch-Data_Loading_Preprocessing.ipynb`, each of which passes
`num_workers=4` and so spawns parallel worker processes; every other
`DataLoader` in the sources uses the library default of zero workers. -/
theorem C3_amended :
    (∀ f : SourceFile,
        ((dataLoaderWorkerArgs f).all fun o => effectiveWorkers o == 0) = true
          ↔ f ≠ SourceFile.pytorchDataLoading)
    ∧ dataLoaderWorkerArgs SourceFile.pytorchDataLoading
        = [some 4, some 4, some 4] := by
  exact ⟨by decide, rfl⟩

/-- C4 counterexample: `SB3-Environments.ipynb` defines its own environment,
the `gym.Env` subclass `CustomEnvironment`, refuting the claim that no
notebook defines an environment of its own. -/
theorem C4_counterexample :
    "CustomEnvironment" ∈ gymEnvSubclasses SourceFile.sb3Environments
    ∧ gymEnvSubclasses SourceFile.sb3Environments ≠ [] := by
  decide

/-- C4 (amended): every environment the notebooks interact with is
third-party and consumed unmodified, except that `SB3-Environments.ipynb`
defines the skeleton `gym.Env` subclass `CustomEnvironment` (with `pass`
bodies), and `Gym-Reward_Functions.ipynb` overrides the environment's reward
channel with notebook-defined reward functions in its training loop. -/
theorem C4_amended :
    (∀ f : SourceFile,
        gymEnvSubclasses f = [] ↔ f ≠ SourceFile.sb3Environments)
    ∧ ∀ f : SourceFile,
        envRewardOverridden f = true ↔ f = SourceFile.gymRewardFunctions := by
  exact ⟨by decide, by decide⟩

/-- C5: no notebook defines a custom exception type or catches an exception,
and the episode loop of `part_004` propagates a failure of the wrapped
library's `env.step` unchanged: whenever the next `step` call raises `e`,
`run_episode`'s loop returns exactly that error and performs no recovery. -/
theorem C5_no_exception_handling :
    (∀ f : SourceFile, exceptionHandlers f = [])
    ∧ ∀ (σ ε : Type) (env : GymEnv σ ε) (state : σ) (total : ℚ) (e : ε)
        (fuel : Nat),
        env.step state (env.sample state) = Except.error e →
        runEpisodeAux env (fuel + 1) state total = Except.error e := by
  refine ⟨fun f => rfl, ?_⟩
  intro σ ε env state total e fuel h
  simp [runEpisodeAux, h]

/-- Witness for C5: an environment whose `step` always raises the string
error `boom` makes the episode loop return exactly that error. -/
theorem C5_witness :
    runEpisodeAux
      ({ reset := 0, sample := fun _ => 0,
         step := fun _ _ => Except.error "boom" } : GymEnv Nat String)
      1 0 0 = Except.error "boom" :=
  C5_no_exception_handling.2 Nat String
    { reset := 0, sample := fun _ => 0,
      step := fun _ _ => Except.error "boom" }
    0 0 "boom" 0 rfl

/-- C6 counterexample: the checkpoint path `ppo_cartpole` is written by
`SB3-Model_Training_and_Eval.ipynb` and read by the PPO notebook `part_005`,
two different notebooks, refuting the claim that no notebook reads a
filesystem path that a different notebook writes. -/
theorem C6_counterexample :
    "ppo_cartpole" ∈ writePaths (checkpointOps Nat 0 SourceFile.sb3ModelTrainingEval)
    ∧ "ppo_cartpole" ∈ readPaths (checkpointOps Nat 0 SourceFile.part005)
    ∧ SourceFile.sb3ModelTrainingEval ≠ SourceFile.part005 := by
  decide

/-- C6 (amended): the read/write checkpoint path sets of distinct notebooks
are not disjoint (`ppo_cartpole` is shared), but two-run noninterference over
the checkpoint files still holds: every notebook's load results are the same
from any two initial filesystem states, because each load is preceded in the
same notebook by that notebook's own save to the same path. -/
theorem C6_amended (α : Type) (st : α) (f : SourceFile)
    (s1 s2 : String → Option α) :
    runOps s1 (checkpointOps α st f) = runOps s2 (checkpointOps α st f) := by
  cases f <;> simp [checkpointOps, runOps]

/-- C7: in every notebook, each checkpoint load reads a path that the same
notebook's save wrote, and the load returns exactly the saved model state,
whatever the prior filesystem contents (load after save at the same path is a
round-trip restoring the saved state). -/
theorem C7_checkpoint_roundtrip (α : Type) (st : α) (f : SourceFile)
    (s : String → Option α) :
    runOps s (checkpointOps α st f)
        = (readPaths (checkpointOps α st f)).map (fun _ => some st)
    ∧ ((readPaths (checkpointOps α st f)).all
        fun p => (writePaths (checkpointOps α st f)).contains p) = true := by
  constructor
  · cases f <;> simp [checkpointOps, runOps, readPaths]
  · cases f <;> rfl

end Tweneigh
